import Mathlib

/-!
Shallow embedding of the event core of the repository:
  * `src/queue_manager.py`   — `TTSQueueManager` (bounded priority queue, dispatcher loop)
  * `src/iris_smart_engine.py` — `EventPriorityManager` (priority classifier)
  * `src/cs2_gsi.py`         — `CS2GameStateIntegration` (webhook handler, state diff engine)

Python integers are modelled as `Int`, Python strings as `String`, Python
`None`-able dictionary lookups as `Option`.  Wall-clock times (`time.time()`)
are modelled as an explicit `Int` parameter `now` threaded through the
functions that read the clock.
-/

namespace TTSQueue

/-- One queue element, the dict appended by `TTSQueueManager.add`
(`src/queue_manager.py` lines 67-72): text, emotion, priority, timestamp. -/
structure QueueItem where
  text : String
  emotion : String
  priority : Int
  timestamp : Int
deriving Repr, DecidableEq

/-- The queue state of `TTSQueueManager`: the `deque` (front of the list is
the oldest element; `append` pushes at the back) and its `maxlen`. -/
structure QueueState where
  maxlen : Nat
  queue : List QueueItem
deriving Repr, DecidableEq

/-- `TTSQueueManager.PRIORITY_CRITICAL` -/
def PRIORITY_CRITICAL : Int := 10
/-- `TTSQueueManager.PRIORITY_KILL` -/
def PRIORITY_KILL : Int := 8
/-- `TTSQueueManager.PRIORITY_REGULAR` -/
def PRIORITY_REGULAR : Int := 5
/-- `TTSQueueManager.PRIORITY_COMMENT` -/
def PRIORITY_COMMENT : Int := 1

/-- `TTSQueueManager.add` (`src/queue_manager.py` lines 47-74): a `None`
priority defaults to `PRIORITY_REGULAR`; if the queue already holds `maxlen`
items the call returns `False` and changes nothing; otherwise the stripped
text is appended at the back, stamped with the current time, and the call
returns `True`.  Returns (return value, queue state after the call). -/
def add (q : QueueState) (text : String) (emotion : String)
    (priority : Option Int) (now : Int) : Bool × QueueState :=
  let priority := priority.getD PRIORITY_REGULAR
  if q.queue.length ≥ q.maxlen then
    (false, q)
  else
    (true, { q with
      queue := q.queue ++ [{ text := text.trim, emotion := emotion,
                             priority := priority, timestamp := now }] })

/-- Strict "worse key" order used by the dispatcher: Python's
`max(self.queue, key=lambda x: (x['priority'], -x['timestamp']))` compares
the tuples `(priority, -timestamp)` lexicographically; `keyLt a b` says the
key of `a` is strictly below the key of `b`. -/
def keyLt (a b : QueueItem) : Prop :=
  a.priority < b.priority ∨ (a.priority = b.priority ∧ b.timestamp < a.timestamp)

instance (a b : QueueItem) : Decidable (keyLt a b) := by
  unfold keyLt; infer_instance

/-- Boolean form of `keyLt`, used inside the executable fold. -/
def keyLtB (a b : QueueItem) : Bool := decide (keyLt a b)

/-- Python's built-in `max` over the deque with key `(priority, -timestamp)`:
it scans left to right and replaces the current best only on a strictly
greater key, hence returns the first element with the maximal key. -/
def pickBest : List QueueItem → Option QueueItem
  | [] => none
  | x :: xs => some (xs.foldl (fun best y => if keyLtB best y then y else best) x)

/-- One iteration of the consumer `TTSQueueManager._process_loop`
(`src/queue_manager.py` lines 112-119) once the debounce and busy checks have
passed: pick the highest-priority (earliest-timestamp) item and remove it
from the deque. -/
def dispatchStep (l : List QueueItem) : Option (QueueItem × List QueueItem) :=
  match pickBest l with
  | none => none
  | some item => some (item, l.erase item)

/-- Repeatedly running the consumer loop with no concurrent `add` until the
queue is empty; the fuel argument bounds the number of iterations (each
iteration removes one element, so `l.length` fuel drains everything). -/
def drainFuel : Nat → List QueueItem → List QueueItem
  | 0, _ => []
  | fuel + 1, l =>
    match pickBest l with
    | none => []
    | some item => item :: drainFuel fuel (l.erase item)

/-- The complete dispatch order of a queue left to the consumer loop. -/
def drain (l : List QueueItem) : List QueueItem := drainFuel l.length l

/-- Two `PRIORITY_COMMENT` items filling a capacity-2 queue (the spec's
overflow scenario, with the repository's own priority constants). -/
def fullLowQueue : QueueState :=
  { maxlen := 2,
    queue := [ { text := "a", emotion := "neutral", priority := PRIORITY_COMMENT, timestamp := 0 },
               { text := "b", emotion := "neutral", priority := PRIORITY_COMMENT, timestamp := 1 } ] }

/-- A two-element queue enqueued low-priority first, used to exhibit the
dispatch order. -/
def demoDispatchQueue : List QueueItem :=
  [ { text := "low", emotion := "neutral", priority := PRIORITY_COMMENT, timestamp := 0 },
    { text := "crit", emotion := "neutral", priority := PRIORITY_CRITICAL, timestamp := 1 } ]

end TTSQueue

namespace SmartEngine

/-- `EventPriority` enum of `src/iris_smart_engine.py` lines 19-25. -/
inductive EventPriority where
  | CRITICAL
  | HIGH
  | MEDIUM
  | LOW
  | IGNORE
deriving Repr, DecidableEq

/-- Numeric values of the enum members. -/
def EventPriority.value : EventPriority → Int
  | .CRITICAL => 100
  | .HIGH => 75
  | .MEDIUM => 50
  | .LOW => 25
  | .IGNORE => 0

/-- The `event_data` dict passed to `get_priority`; the only key the
classifier reads is `current_health`.  A Python `None` (or empty, falsy)
dict is modelled by `Option.none` at the call site. -/
structure EventData where
  current_health : Option Int := none
deriving Repr, DecidableEq

/-- `EventPriorityManager.event_weights` (`src/iris_smart_engine.py` lines
99-113): the static table from event type to (priority, description). -/
def event_weights (t : String) : Option (EventPriority × String) :=
  match t with
  | "low_health" => some (.CRITICAL, "Zdorovye kritichnoe")
  | "low_ammo_warning" => some (.HIGH, "Patrony konchayutsya")
  | "death" => some (.CRITICAL, "Smert")
  | "ace" => some (.HIGH, "ACE!")
  | "quadra_kill" => some (.HIGH, "Chetverka")
  | "triple_kill" => some (.HIGH, "Troyka")
  | "double_kill" => some (.MEDIUM, "Dvoyka")
  | "kill" => some (.LOW, "Kill")
  | "heavy_damage" => some (.MEDIUM, "Uron")
  | "bomb_planted" => some (.HIGH, "Bomba!")
  | "bomb_defused" => some (.HIGH, "Razminirovana")
  | "round_start" => some (.LOW, "Raund nachalsya")
  | "round_end" => some (.MEDIUM, "Raund zakonchilsya")
  | _ => none

/-- `EventPriorityManager.get_priority` (`src/iris_smart_engine.py` lines
115-125): look the type up in the table, default `(LOW, "")`; then, when the
type is `low_health` and `event_data` is truthy, re-set the priority to
`CRITICAL` if `current_health` (default 50) is ≤ 1. -/
def get_priority (event_type : String) (event_data : Option EventData) : EventPriority :=
  let priority := ((event_weights event_type).getD (EventPriority.LOW, "")).1
  if event_type = "low_health" then
    match event_data with
    | some d => if d.current_health.getD 50 ≤ 1 then EventPriority.CRITICAL else priority
    | none => priority
  else
    priority

end SmartEngine

namespace CS2GSI

/-- `PlayerState` dataclass (`src/cs2_gsi.py` lines 13-44), restricted to the
fields the diff engine reads or writes; the float position fields and the
position tuple are outside the integer/string model and are not touched by
any claim.  `last_health_update_time` and `last_ammo_warning_time` hold
clock readings (`time.time()`), modelled as `Int`. -/
structure PlayerState where
  name : String := ""
  team : String := ""
  health : Int := 100
  armor : Int := 0
  helmet : Bool := false
  money : Int := 0
  round_kills : Int := 0
  round_killhs : Int := 0
  equip_value : Int := 0
  kills : Int := 0
  assists : Int := 0
  deaths : Int := 0
  mvps : Int := 0
  score : Int := 0
  weapon : String := ""
  ammo_in_magazine : Int := 0
  ammo_in_reserve : Int := 0
  defuse_kit : Bool := false
  has_bomb : Bool := false
  fatigue : Int := 100
  last_health_update_time : Int := 0
  last_ammo_warning_time : Int := 0
deriving Repr, DecidableEq

/-- `RoundState` dataclass (`src/cs2_gsi.py` lines 46-50). -/
structure RoundState where
  phase : String := ""
  bomb : String := ""
  win_team : String := ""
deriving Repr, DecidableEq

/-- `MapState` dataclass (`src/cs2_gsi.py` lines 52-59). -/
structure MapState where
  name : String := ""
  mode : String := ""
  phase : String := ""
  round : Int := 0
  ct_score : Int := 0
  t_score : Int := 0
deriving Repr, DecidableEq

/-- A game event; only the event type matters to the claims (the payload
dicts built by the emitters carry no information the claims quantify over,
and one of their entries, `kd_ratio`, is a float). -/
structure GameEvent where
  event_type : String
deriving Repr, DecidableEq

/-- The mutable fields of `CS2GameStateIntegration` (`src/cs2_gsi.py` lines
77-85) that the diff engine reads or writes: the three state dataclasses and
the round-scoped counters. -/
structure EngineState where
  player : PlayerState := {}
  round : RoundState := {}
  map : MapState := {}
  kill_streak : Int := 0
  round_start_kills : Int := 0
  clutch_situation : Bool := false
  clutch_enemies : Int := 0
deriving Repr, DecidableEq

/-- The `player.state` sub-dict of a snapshot; `none` models an absent key. -/
structure StateField where
  health : Option Int := none
  armor : Option Int := none
  helmet : Option Bool := none
  money : Option Int := none
  round_kills : Option Int := none
  round_killhs : Option Int := none
  equip_value : Option Int := none
  defusekit : Option Bool := none
  bomb : Option Bool := none
  fatigue : Option Int := none
deriving Repr, DecidableEq

/-- The `player.match_stats` sub-dict of a snapshot. -/
structure MatchStats where
  kills : Option Int := none
  assists : Option Int := none
  deaths : Option Int := none
  mvps : Option Int := none
  score : Option Int := none
deriving Repr, DecidableEq

/-- One value of the `player.weapons` dict. -/
structure WeaponEntry where
  state : Option String := none
  name : Option String := none
  ammo_clip : Option Int := none
  ammo_clip_reserve : Option Int := none
deriving Repr, DecidableEq

/-- The `player.weapons` entry of a snapshot.  `valid ws` is a JSON object
(its values in insertion order; an absent key is `valid []`, Python's `{}`
default); `malformed` is a present key whose value is not an object, on
which `weapons.items()` raises and the exception escapes
`_process_game_state`. -/
inductive WeaponsField where
  | valid (ws : List WeaponEntry)
  | malformed
deriving Repr, DecidableEq

/-- The `player` sub-dict of a snapshot.  An absent `state`, `match_stats` or
`weapons` key yields the `{}` default, i.e. all-`none` / `valid []`. -/
structure PlayerData where
  name : Option String := none
  team : Option String := none
  state : StateField := {}
  match_stats : MatchStats := {}
  weapons : WeaponsField := .valid []
deriving Repr, DecidableEq

/-- The `round` sub-dict of a snapshot. -/
structure RoundData where
  phase : Option String := none
  bomb : Option String := none
  win_team : Option String := none
deriving Repr, DecidableEq

/-- A `team_ct` / `team_t` sub-dict of the `map` data. -/
structure TeamData where
  score : Option Int := none
deriving Repr, DecidableEq

/-- The `map` sub-dict of a snapshot. -/
structure MapData where
  name : Option String := none
  mode : Option String := none
  phase : Option String := none
  round : Option Int := none
  team_ct : TeamData := {}
  team_t : TeamData := {}
deriving Repr, DecidableEq

/-- A parsed snapshot: the three top-level keys the diff engine diffs
(`allplayers`, `allgrenades` and `phase_countdowns` feed auxiliary
dictionaries that never touch the player/round/map state or emit events).
`none` models a key that is absent or bound to a falsy value, which makes
the corresponding block of `_process_game_state` a no-op. -/
structure Snapshot where
  player : Option PlayerData := none
  round : Option RoundData := none
  map : Option MapData := none
deriving Repr, DecidableEq

/-- The straight-line field assignments of `_process_game_state` lines
140-155: name/team, the `state` scalars and the `match_stats` scalars, each
`dict.get(key, previous value)`. -/
def applyBasicFields (pd : PlayerData) (p : PlayerState) : PlayerState :=
  { p with
    name := pd.name.getD p.name,
    team := pd.team.getD p.team,
    health := pd.state.health.getD p.health,
    armor := pd.state.armor.getD p.armor,
    helmet := pd.state.helmet.getD p.helmet,
    money := pd.state.money.getD p.money,
    round_kills := pd.state.round_kills.getD p.round_kills,
    round_killhs := pd.state.round_killhs.getD p.round_killhs,
    equip_value := pd.state.equip_value.getD p.equip_value,
    kills := pd.match_stats.kills.getD p.kills,
    assists := pd.match_stats.assists.getD p.assists,
    deaths := pd.match_stats.deaths.getD p.deaths,
    mvps := pd.match_stats.mvps.getD p.mvps,
    score := pd.match_stats.score.getD p.score }

/-- The kill-class name chosen by `_emit_kill_event` (`src/cs2_gsi.py` lines
330-340) from the round-kill counter at the time of detection. -/
def killClass (round_kills : Int) : String :=
  if round_kills ≥ 5 then "ace"
  else if round_kills ≥ 4 then "quadra_kill"
  else if round_kills ≥ 3 then "triple_kill"
  else if round_kills ≥ 2 then "double_kill"
  else "kill"

/-- `_emit_kill_event` (`src/cs2_gsi.py` lines 317-340): add the detected
increase to the kill streak, then emit exactly one event whose type is
`killClass` of the (already updated) round-kill counter. -/
def emit_kill_event (s : EngineState) (kill_count : Int) : EngineState × GameEvent :=
  let s := { s with kill_streak := s.kill_streak + kill_count }
  (s, { event_type := killClass s.player.round_kills })

/-- `_emit_damage_event` (`src/cs2_gsi.py` lines 351-361): emit `low_health`
if the (already updated) health is ≤ 25, else `heavy_damage` if the health
delta is ≥ 50, else nothing.  No event of type `damage` exists. -/
def emit_damage_event (s : EngineState) (damage : Int) : List GameEvent :=
  if s.player.health ≤ 25 then [{ event_type := "low_health" }]
  else if damage ≥ 50 then [{ event_type := "heavy_damage" }]
  else []

/-- `_emit_round_start_event` (`src/cs2_gsi.py` lines 363-378): reset the
kill streak, record the round-start kill baseline, clear the clutch flag,
emit `round_start`. -/
def emit_round_start_event (s : EngineState) : EngineState × GameEvent :=
  let s := { s with kill_streak := 0,
                    round_start_kills := s.player.kills,
                    clutch_situation := false }
  (s, { event_type := "round_start" })

/-- The player block of `_process_game_state` (`src/cs2_gsi.py` lines
125-198), executed when the snapshot's `player` value is truthy.  Returns
(state after the block, events emitted, `true` iff no exception escaped).
In-place attribute mutation is rendered as functional record update; an
emitter's state effect (`_emit_kill_event` adds to `kill_streak`,
`_emit_death_event` zeroes it) is threaded into the single rebuilt state.
On `malformed` weapons the iteration `weapons.items()` raises after the
lines-140-155 assignments have already been stored, so the partially
updated state is kept, no events have been emitted yet, and the flag is
`false`. -/
def processPlayer (now : Int) (pd : PlayerData) (s : EngineState) :
    EngineState × List GameEvent × Bool :=
  let old_health := s.player.health
  let old_kills := s.player.kills
  let old_deaths := s.player.deaths
  let old_ammo := s.player.ammo_in_magazine + s.player.ammo_in_reserve
  let p1 := applyBasicFields pd s.player
  match pd.weapons with
  | .malformed => ({ s with player := p1 }, [], false)
  | .valid ws =>
    let active := ws.find? (fun w => w.state == some "active")
    let p2 := { p1 with
      weapon := match active with
        | some w => w.name.getD ""
        | none => p1.weapon,
      ammo_in_magazine := match active with
        | some w => w.ammo_clip.getD 0
        | none => p1.ammo_in_magazine,
      ammo_in_reserve := match active with
        | some w => w.ammo_clip_reserve.getD 0
        | none => p1.ammo_in_reserve }
    let p3 := { p2 with defuse_kit := pd.state.defusekit.getD false,
                        has_bomb := pd.state.bomb.getD false,
                        fatigue := pd.state.fatigue.getD 100,
                        last_health_update_time := now }
    let new_ammo := p3.ammo_in_magazine + p3.ammo_in_reserve
    let p4 := { p3 with last_ammo_warning_time :=
      if new_ammo < old_ammo ∧ new_ammo ≤ 10 ∧ new_ammo > 0 ∧
          now - p3.last_ammo_warning_time > 3 then now
      else p3.last_ammo_warning_time }
    let evs_ammo : List GameEvent :=
      if new_ammo < old_ammo ∧ new_ammo ≤ 10 ∧ new_ammo > 0 ∧
          now - p3.last_ammo_warning_time > 3 then
        [{ event_type := "low_ammo_warning" }]
      else []
    let s4 := { s with player := p4 }
    let killRes := emit_kill_event s4 (p4.kills - old_kills)
    let s5 := { s4 with kill_streak :=
      if p4.kills > old_kills then killRes.1.kill_streak else s4.kill_streak }
    let evs_k : List GameEvent :=
      if p4.kills > old_kills then [killRes.2] else []
    let s6 := { s5 with kill_streak :=
      if p4.deaths > old_deaths then 0 else s5.kill_streak }
    let evs_d : List GameEvent :=
      if p4.deaths > old_deaths then [{ event_type := "death" }] else []
    let evs_dmg : List GameEvent :=
      if p4.health < old_health ∧ p4.health > 0 then
        emit_damage_event s6 (old_health - p4.health)
      else []
    (s6, evs_ammo ++ evs_k ++ evs_d ++ evs_dmg, true)

/-- The assignments of `_process_game_state` lines 207-209: each round field
is `round_data.get(key, previous value)`. -/
def updateRound (rd : RoundData) (r : RoundState) : RoundState :=
  { phase := rd.phase.getD r.phase,
    bomb := rd.bomb.getD r.bomb,
    win_team := rd.win_team.getD r.win_team }

/-- The round block of `_process_game_state` (`src/cs2_gsi.py` lines
203-224): overwrite phase/bomb/win_team (keeping prior values for absent
keys) and emit the rising-edge events. -/
def processRound (rd : RoundData) (s : EngineState) : EngineState × List GameEvent :=
  let old_phase := s.round.phase
  let old_bomb := s.round.bomb
  let r1 := updateRound rd s.round
  let s1 := { s with round := r1 }
  let startFire : Bool := r1.phase = "freezetime" ∧ old_phase ≠ "freezetime"
  let s2 := if startFire then (emit_round_start_event s1).1 else s1
  let evs1 : List GameEvent :=
    if startFire then [(emit_round_start_event s1).2] else []
  let evs2 : List GameEvent :=
    if r1.phase = "over" ∧ old_phase ≠ "over" then [{ event_type := "round_end" }] else []
  let evs3 : List GameEvent :=
    if r1.bomb = "planted" ∧ old_bomb ≠ "planted" then [{ event_type := "bomb_planted" }] else []
  let evs4 : List GameEvent :=
    if r1.bomb = "defused" ∧ old_bomb ≠ "defused" then [{ event_type := "bomb_defused" }] else []
  let evs5 : List GameEvent :=
    if r1.bomb = "exploded" ∧ old_bomb ≠ "exploded" then [{ event_type := "bomb_exploded" }] else []
  (s2, evs1 ++ evs2 ++ evs3 ++ evs4 ++ evs5)

/-- The assignments of `_process_game_state` lines 232-239: each map field is
`map_data.get(key, previous value)`, the two scores read through the
`team_ct` / `team_t` sub-dicts (`{}` when absent). -/
def updateMap (md : MapData) (m : MapState) : MapState :=
  { name := md.name.getD m.name,
    mode := md.mode.getD m.mode,
    phase := md.phase.getD m.phase,
    round := md.round.getD m.round,
    ct_score := md.team_ct.score.getD m.ct_score,
    t_score := md.team_t.score.getD m.t_score }

/-- The map block of `_process_game_state` (`src/cs2_gsi.py` lines 229-242):
overwrite the map fields (keeping prior values for absent keys) and emit
`match_end` whenever the stored phase is `gameover`.  The saved `old_round`
of line 231 is never read afterwards: a round-number decrease triggers no
reset. -/
def processMap (md : MapData) (s : EngineState) : EngineState × List GameEvent :=
  let m1 := updateMap md s.map
  let s1 := { s with map := m1 }
  (s1, if m1.phase = "gameover" then [{ event_type := "match_end" }] else [])

/-- Outcome of one `_process_game_state` call: the engine state after the
call (in Python, mutations are in place and survive an exception), the
events emitted before control left the method, and `ok = false` iff an
exception escaped the method (to be caught by the webhook handler). -/
structure ProcOutcome where
  state : EngineState
  events : List GameEvent
  ok : Bool
deriving Repr, DecidableEq

/-- `_process_game_state` (`src/cs2_gsi.py` lines 119-302) on the three
diffed blocks: player, then round, then map, each skipped when its key is
absent/falsy.  An exception inside the player block aborts the rest of the
method but keeps the mutations already made. -/
def processGameState (now : Int) (data : Snapshot) (s0 : EngineState) : ProcOutcome :=
  let step1 : EngineState × List GameEvent × Bool :=
    match data.player with
    | none => (s0, [], true)
    | some pd => processPlayer now pd s0
  let s1 := step1.1
  let evs1 := step1.2.1
  if step1.2.2 = false then
    { state := s1, events := evs1, ok := false }
  else
    let step2 : EngineState × List GameEvent :=
      match data.round with
      | none => (s1, [])
      | some rd => processRound rd s1
    let step3 : EngineState × List GameEvent :=
      match data.map with
      | none => (step2.1, [])
      | some md => processMap md step2.1
    { state := step3.1, events := evs1 ++ step2.2 ++ step3.2, ok := true }

/-- HTTP response of the webhook handler, reduced to the status code and the
`status` field of the JSON body (`jsonify` of a one-key dict). -/
structure HttpResponse where
  status_code : Nat
  status : String
deriving Repr, DecidableEq

/-- An inbound `POST /` request as seen by `request.get_json()`:
`parse_failure` models a body that is missing or not parseable as JSON (the
call raises, e.g. wrong content type or invalid JSON); `body d` models a
parsed body, with `d = none` for a falsy result (JSON `null`, empty
object). -/
inductive Request where
  | parse_failure
  | body (data : Option Snapshot)
deriving Repr, DecidableEq

/-- `gsi_handler` (`src/cs2_gsi.py` lines 99-108): parse the body, process a
truthy result, answer `200 {"status": "ok"}`; any exception — from parsing
or from `_process_game_state` — is caught and answered with
`500 {"status": "error"}`, the in-place state mutations surviving. -/
def gsi_handler (now : Int) (req : Request) (s : EngineState) :
    EngineState × HttpResponse :=
  match req with
  | .parse_failure => (s, { status_code := 500, status := "error" })
  | .body none => (s, { status_code := 200, status := "ok" })
  | .body (some snap) =>
    let o := processGameState now snap s
    if o.ok then (o.state, { status_code := 200, status := "ok" })
    else (o.state, { status_code := 500, status := "error" })

/-- `true` iff the event is one of the five kill-class types of
`_emit_kill_event`. -/
def isKillClass (e : GameEvent) : Bool :=
  e.event_type == "kill" || e.event_type == "double_kill" ||
  e.event_type == "triple_kill" || e.event_type == "quadra_kill" ||
  e.event_type == "ace"

/-- `true` iff the event is one of the damage-related types (`damage` as the
spec names it, plus the two types `_emit_damage_event` can actually emit). -/
def isDamageClass (e : GameEvent) : Bool :=
  e.event_type == "damage" || e.event_type == "low_health" ||
  e.event_type == "heavy_damage"

/-- A snapshot whose `player.state.health` is 50 and whose `player.weapons`
value is not a JSON object, so that `weapons.items()` raises after the
health assignment has already been stored. -/
def snapBadWeapons : Snapshot :=
  { player := some { state := { health := some 50 },
                     weapons := WeaponsField.malformed } }

/-- A snapshot raising the match-kill counter from 0 to 1 while the
round-kill counter jumps to 5. -/
def snapAceJump : Snapshot :=
  { player := some { state := { round_kills := some 5 },
                     match_stats := { kills := some 1 } } }

/-- A snapshot dropping health from the initial 100 to 90. -/
def snapSmallDamage : Snapshot :=
  { player := some { state := { health := some 90 } } }

/-- A snapshot dropping health from the initial 100 to 20. -/
def snapLowHealth : Snapshot :=
  { player := some { state := { health := some 20 } } }

/-- A snapshot with a player block whose `state` carries no keys at all. -/
def snapNameOnly : Snapshot :=
  { player := some { name := some "p" } }

/-- A stored state in which the player is known to hold a defuse kit. -/
def stateWithKit : EngineState :=
  { player := { defuse_kit := true } }

/-- A snapshot reporting an out-of-range health value. -/
def snapHugeHealth : Snapshot :=
  { player := some { state := { health := some 150 } } }

/-- A snapshot whose map block reports round 2. -/
def snapRoundTwo : Snapshot :=
  { map := some { round := some 2 } }

/-- A stored state at round 5 with live round-scoped counters. -/
def stateMidMatch : EngineState :=
  { map := { round := 5 }, kill_streak := 3, round_start_kills := 7 }

end CS2GSI


/-! ## Helper lemmas -/

namespace TTSQueue

theorem keyLt_irrefl (a : QueueItem) : ¬ keyLt a a := by
  unfold keyLt; omega

theorem keyLt_trans {a b c : QueueItem} (h1 : keyLt a b) (h2 : keyLt b c) :
    keyLt a c := by
  unfold keyLt at *; omega

theorem keyLt_cross {a b c : QueueItem} (h1 : keyLt a b) (h2 : ¬ keyLt c b) :
    keyLt a c := by
  unfold keyLt at *; omega

theorem keyLtB_iff {a b : QueueItem} : keyLtB a b = true ↔ keyLt a b := by
  simp [keyLtB]

theorem foldl_best_mem (xs : List QueueItem) (x : QueueItem) :
    xs.foldl (fun best w => if keyLtB best w then w else best) x ∈ x :: xs := by
  induction xs generalizing x with
  | nil => simp
  | cons z zs ih =>
    rw [List.foldl_cons]
    have h := ih (if keyLtB x z then z else x)
    rcases List.mem_cons.mp h with h' | h'
    · rw [h']
      split
      · exact List.mem_cons_of_mem _ (List.mem_cons_self _ _)
      · exact List.mem_cons_self _ _
    · exact List.mem_cons_of_mem _ (List.mem_cons_of_mem _ h')

theorem foldl_best_not_lt (xs : List QueueItem) :
    ∀ (x y : QueueItem), y ∈ x :: xs →
    ¬ keyLt (xs.foldl (fun best w => if keyLtB best w then w else best) x) y := by
  induction xs with
  | nil =>
    intro x y hy
    have hyx : y = x := by simpa using hy
    subst hyx
    exact keyLt_irrefl y
  | cons z zs ih =>
    intro x y hy
    rw [List.foldl_cons]
    by_cases hc : keyLtB x z = true
    · rw [if_pos hc]
      rcases List.mem_cons.mp hy with h1 | h1
      · subst h1
        intro habs
        exact ih z z (List.mem_cons_self z zs) (keyLt_trans habs (keyLtB_iff.mp hc))
      · exact ih z y h1
    · rw [if_neg hc]
      rcases List.mem_cons.mp hy with h1 | h1
      · subst h1
        exact ih y y (List.mem_cons_self y zs)
      · rcases List.mem_cons.mp h1 with h2 | h2
        · intro habs
          have hnot : ¬ keyLt x y := by
            intro h3
            apply hc
            apply keyLtB_iff.mpr
            rw [← h2]
            exact h3
          exact ih x x (List.mem_cons_self x zs) (keyLt_cross habs hnot)
        · exact ih x y (List.mem_cons_of_mem x h2)

theorem pickBest_mem {l : List QueueItem} {x : QueueItem}
    (h : pickBest l = some x) : x ∈ l := by
  cases l with
  | nil => simp [pickBest] at h
  | cons a as =>
    simp only [pickBest, Option.some.injEq] at h
    subst h
    exact foldl_best_mem as a

theorem pickBest_not_lt {l : List QueueItem} {x : QueueItem}
    (h : pickBest l = some x) : ∀ y ∈ l, ¬ keyLt x y := by
  cases l with
  | nil => simp [pickBest] at h
  | cons a as =>
    simp only [pickBest, Option.some.injEq] at h
    subst h
    exact fun y hy => foldl_best_not_lt as a y hy

theorem pickBest_eq_none_iff {l : List QueueItem} : pickBest l = none ↔ l = [] := by
  cases l <;> simp [pickBest]

theorem drainFuel_perm : ∀ (fuel : Nat) (l : List QueueItem),
    l.length ≤ fuel → (drainFuel fuel l).Perm l := by
  intro fuel
  induction fuel with
  | zero =>
    intro l h
    have hl : l = [] := List.eq_nil_of_length_eq_zero (Nat.le_zero.mp h)
    subst hl
    simp [drainFuel]
  | succ n ih =>
    intro l h
    cases hp : pickBest l with
    | none =>
      have hl : l = [] := pickBest_eq_none_iff.mp hp
      subst hl
      simp [drainFuel, pickBest]
    | some x =>
      have hx : x ∈ l := pickBest_mem hp
      have hlen : (l.erase x).length ≤ n := by
        have := List.length_erase_of_mem hx
        omega
      have hperm := ih (l.erase x) hlen
      simp only [drainFuel, hp]
      exact (hperm.cons x).trans (List.perm_cons_erase hx).symm

theorem drainFuel_pairwise : ∀ (fuel : Nat) (l : List QueueItem),
    l.length ≤ fuel →
    List.Pairwise (fun a b => ¬ keyLt a b) (drainFuel fuel l) := by
  intro fuel
  induction fuel with
  | zero => intro l _; simp [drainFuel]
  | succ n ih =>
    intro l h
    cases hp : pickBest l with
    | none => simp [drainFuel, hp]
    | some x =>
      have hx : x ∈ l := pickBest_mem hp
      have hlen : (l.erase x).length ≤ n := by
        have := List.length_erase_of_mem hx
        omega
      simp only [drainFuel, hp]
      refine List.Pairwise.cons ?_ (ih (l.erase x) hlen)
      intro y hy
      have hy' : y ∈ l.erase x := ((drainFuel_perm n (l.erase x) hlen).mem_iff).mp hy
      exact pickBest_not_lt hp y (List.mem_of_mem_erase hy')

theorem drain_perm (l : List QueueItem) : (drain l).Perm l :=
  drainFuel_perm l.length l le_rfl

theorem drain_pairwise (l : List QueueItem) :
    List.Pairwise (fun a b => ¬ keyLt a b) (drain l) :=
  drainFuel_pairwise l.length l le_rfl

end TTSQueue

/-! ## Claim C3 -/

/-- C3 counterexample: with the queue at capacity 2 holding two
`PRIORITY_COMMENT` items, an incoming `PRIORITY_CRITICAL` item — which the
claim says must evict a low-priority item and be enqueued with the call
reporting success — is instead dropped: `add` returns `False` and the queue
is unchanged. -/
theorem c3_counterexample :
    TTSQueue.add TTSQueue.fullLowQueue "c" "neutral"
        (some TTSQueue.PRIORITY_CRITICAL) 2 =
      (false, TTSQueue.fullLowQueue) := by
  decide

/-- C3 (amended): when the queue already holds `maxlen` items, `add` drops
the incoming item and reports failure regardless of any priority comparison
— no queued item is ever evicted and the queue is unchanged; when the queue
is not full the stripped item is appended at the back and `add` reports
success.  The call never blocks. -/
theorem c3_amended_overflow_drop :
    ∀ (q : TTSQueue.QueueState) (text emotion : String)
      (priority : Option Int) (now : Int),
      (q.queue.length ≥ q.maxlen →
        TTSQueue.add q text emotion priority now = (false, q)) ∧
      (q.queue.length < q.maxlen →
        (TTSQueue.add q text emotion priority now).1 = true ∧
        (TTSQueue.add q text emotion priority now).2.queue =
          q.queue ++ [{ text := text.trim, emotion := emotion,
                        priority := priority.getD TTSQueue.PRIORITY_REGULAR,
                        timestamp := now }]) := by
  intro q text emotion priority now
  constructor
  · intro h
    simp only [TTSQueue.add]
    rw [if_pos h]
  · intro h
    simp only [TTSQueue.add]
    rw [if_neg (by omega)]
    exact ⟨rfl, rfl⟩

/-- Witness for `c3_amended_overflow_drop` at concrete inputs: the full
queue rejects and keeps its two items; an empty capacity-2 queue accepts. -/
theorem c3_amended_overflow_drop_witness :
    TTSQueue.add TTSQueue.fullLowQueue "x" "neutral" none 5 =
      (false, TTSQueue.fullLowQueue) ∧
    (TTSQueue.add { maxlen := 2, queue := [] } "x" "neutral" none 5).1 = true :=
  ⟨(c3_amended_overflow_drop TTSQueue.fullLowQueue "x" "neutral" none 5).1 (by decide),
   ((c3_amended_overflow_drop { maxlen := 2, queue := [] } "x" "neutral" none 5).2
      (by decide)).1⟩

/-! ## Claim C6 -/

/-- C6: dispatch order of the consumer loop, run to exhaustion with no
concurrent enqueues, is a total order: every queued item is dispatched
exactly once (permutation), and for any two dispatch positions `i < j` the
item at `j` never has higher priority than the item at `i`, and on equal
priorities the item at `i` has the earlier (≤) enqueue timestamp. -/
theorem c6_dispatch_total_order :
    ∀ (l : List TTSQueue.QueueItem),
      (TTSQueue.drain l).Perm l ∧
      ∀ (i j : Fin (TTSQueue.drain l).length), (i : Nat) < (j : Nat) →
        (((TTSQueue.drain l).get j).priority ≤ ((TTSQueue.drain l).get i).priority ∧
         (((TTSQueue.drain l).get i).priority = ((TTSQueue.drain l).get j).priority →
           ((TTSQueue.drain l).get i).timestamp ≤ ((TTSQueue.drain l).get j).timestamp)) := by
  intro l
  refine ⟨TTSQueue.drain_perm l, ?_⟩
  intro i j hij
  have hp := (List.pairwise_iff_get.mp (TTSQueue.drain_pairwise l)) i j hij
  unfold TTSQueue.keyLt at hp
  constructor
  · omega
  · intro he
    omega

/-- Witness for `c6_dispatch_total_order`: on a queue holding a
`PRIORITY_COMMENT` item enqueued first and a `PRIORITY_CRITICAL` item
enqueued second, the dispatch order is a permutation and position 1 has no
higher priority than position 0. -/
theorem c6_dispatch_total_order_witness :
    (TTSQueue.drain TTSQueue.demoDispatchQueue).Perm TTSQueue.demoDispatchQueue ∧
    ((TTSQueue.drain TTSQueue.demoDispatchQueue).get
        ⟨1, by decide⟩).priority ≤
      ((TTSQueue.drain TTSQueue.demoDispatchQueue).get ⟨0, by decide⟩).priority :=
  ⟨(c6_dispatch_total_order TTSQueue.demoDispatchQueue).1,
   ((c6_dispatch_total_order TTSQueue.demoDispatchQueue).2
      ⟨0, by decide⟩ ⟨1, by decide⟩ (by decide)).1⟩

/-! ## Claim C10 -/

/-- C10 counterexample: by the claim, a `low_health` event with health 50
(> 1) must classify as `HIGH`; the code classifies it as `CRITICAL`, because
the static table already maps `low_health` to `CRITICAL` and the dynamic
health check can only re-set `CRITICAL`. -/
theorem c10_counterexample :
    SmartEngine.get_priority "low_health" (some { current_health := some 50 }) ≠
      SmartEngine.EventPriority.HIGH := by
  decide

/-- C10 (amended): the classifier is a pure function of the event such that
classifying a `low_health` event returns `CRITICAL` for every health value
(the table entry for `low_health` is already `CRITICAL`, so the ≤ 1
escalation never changes the result), and classifying any event type absent
from the static priority table returns `LOW`. -/
theorem c10_amended_priority_classifier :
    (∀ d, SmartEngine.get_priority "low_health" d =
        SmartEngine.EventPriority.CRITICAL) ∧
    (∀ t d, SmartEngine.event_weights t = none →
        SmartEngine.get_priority t d = SmartEngine.EventPriority.LOW) := by
  constructor
  · intro d
    cases d with
    | none => rfl
    | some dd =>
      simp only [SmartEngine.get_priority, SmartEngine.event_weights]
      split
      · split <;> rfl
      · rfl
  · intro t d h
    have ht : t ≠ "low_health" := by
      intro he
      rw [he] at h
      simp [SmartEngine.event_weights] at h
    simp [SmartEngine.get_priority, ht, h]

/-- Witness for `c10_amended_priority_classifier`: `low_health` at health 50
is `CRITICAL`; the unknown type `clutch_win` is `LOW`. -/
theorem c10_amended_priority_classifier_witness :
    SmartEngine.get_priority "low_health" (some { current_health := some 50 }) =
      SmartEngine.EventPriority.CRITICAL ∧
    SmartEngine.get_priority "clutch_win" none = SmartEngine.EventPriority.LOW :=
  ⟨c10_amended_priority_classifier.1 (some { current_health := some 50 }),
   c10_amended_priority_classifier.2 "clutch_win" none rfl⟩

namespace CS2GSI

theorem isKillClass_killClass (rk : Int) :
    isKillClass { event_type := killClass rk } = true := by
  simp only [isKillClass, killClass]
  repeat' split
  all_goals rfl

theorem isDamageClass_killClass (rk : Int) :
    isDamageClass { event_type := killClass rk } = false := by
  simp only [isDamageClass, killClass]
  repeat' split
  all_goals rfl

theorem processPlayer_player_basics (now : Int) (pd : PlayerData) (s : EngineState) :
    (processPlayer now pd s).1.player.name = pd.name.getD s.player.name ∧
    (processPlayer now pd s).1.player.team = pd.team.getD s.player.team ∧
    (processPlayer now pd s).1.player.health = pd.state.health.getD s.player.health ∧
    (processPlayer now pd s).1.player.armor = pd.state.armor.getD s.player.armor ∧
    (processPlayer now pd s).1.player.helmet = pd.state.helmet.getD s.player.helmet ∧
    (processPlayer now pd s).1.player.money = pd.state.money.getD s.player.money ∧
    (processPlayer now pd s).1.player.round_kills = pd.state.round_kills.getD s.player.round_kills ∧
    (processPlayer now pd s).1.player.round_killhs = pd.state.round_killhs.getD s.player.round_killhs ∧
    (processPlayer now pd s).1.player.equip_value = pd.state.equip_value.getD s.player.equip_value ∧
    (processPlayer now pd s).1.player.kills = pd.match_stats.kills.getD s.player.kills ∧
    (processPlayer now pd s).1.player.assists = pd.match_stats.assists.getD s.player.assists ∧
    (processPlayer now pd s).1.player.deaths = pd.match_stats.deaths.getD s.player.deaths ∧
    (processPlayer now pd s).1.player.mvps = pd.match_stats.mvps.getD s.player.mvps ∧
    (processPlayer now pd s).1.player.score = pd.match_stats.score.getD s.player.score := by
  rcases pd with ⟨n, t, st, ms, w⟩
  cases w <;> simp [processPlayer, applyBasicFields]

theorem processRound_state_player (rd : RoundData) (s : EngineState) :
    (processRound rd s).1.player = s.player := by
  simp only [processRound, emit_round_start_event]
  repeat' split
  all_goals rfl

theorem processRound_state_map (rd : RoundData) (s : EngineState) :
    (processRound rd s).1.map = s.map := by
  simp only [processRound, emit_round_start_event]
  repeat' split
  all_goals rfl

theorem processRound_state_round (rd : RoundData) (s : EngineState) :
    (processRound rd s).1.round = updateRound rd s.round := by
  simp only [processRound, emit_round_start_event]
  repeat' split
  all_goals rfl

theorem processMap_state_player (md : MapData) (s : EngineState) :
    (processMap md s).1.player = s.player := rfl

theorem processMap_state_round (md : MapData) (s : EngineState) :
    (processMap md s).1.round = s.round := rfl

theorem processMap_state_map (md : MapData) (s : EngineState) :
    (processMap md s).1.map = updateMap md s.map := rfl

theorem processPlayer_state_round (now : Int) (pd : PlayerData) (s : EngineState) :
    (processPlayer now pd s).1.round = s.round := by
  rcases pd with ⟨n, t, st, ms, w⟩
  cases w <;> rfl

theorem processPlayer_state_map (now : Int) (pd : PlayerData) (s : EngineState) :
    (processPlayer now pd s).1.map = s.map := by
  rcases pd with ⟨n, t, st, ms, w⟩
  cases w <;> rfl

theorem processPlayer_ok (now : Int) (pd : PlayerData) (s : EngineState) :
    (processPlayer now pd s).2.2 =
      match pd.weapons with
      | .malformed => false
      | .valid _ => true := by
  rcases pd with ⟨n, t, st, ms, w⟩
  cases w
  case valid ws => rfl
  case malformed => rfl

theorem isKillClass_ammo : isKillClass { event_type := "low_ammo_warning" } = false := rfl

theorem isKillClass_death : isKillClass { event_type := "death" } = false := rfl

theorem isKillClass_low_health : isKillClass { event_type := "low_health" } = false := rfl

theorem isKillClass_heavy : isKillClass { event_type := "heavy_damage" } = false := rfl

theorem isDamageClass_ammo : isDamageClass { event_type := "low_ammo_warning" } = false := rfl

theorem isDamageClass_death : isDamageClass { event_type := "death" } = false := rfl

theorem isDamageClass_low_health : isDamageClass { event_type := "low_health" } = true := rfl

theorem isDamageClass_heavy : isDamageClass { event_type := "heavy_damage" } = true := rfl

theorem processPlayer_player_resets (now : Int) (pd : PlayerData) (s : EngineState)
    (h : pd.weapons ≠ WeaponsField.malformed) :
    (processPlayer now pd s).1.player.defuse_kit = pd.state.defusekit.getD false ∧
    (processPlayer now pd s).1.player.has_bomb = pd.state.bomb.getD false ∧
    (processPlayer now pd s).1.player.fatigue = pd.state.fatigue.getD 100 := by
  rcases pd with ⟨n, t, st, ms, w⟩
  cases w
  case valid ws => exact ⟨rfl, rfl, rfl⟩
  case malformed => exact absurd rfl h

theorem processPlayer_filter_kill (now : Int) (pd : PlayerData) (s : EngineState)
    (h : pd.weapons ≠ WeaponsField.malformed) :
    (processPlayer now pd s).2.1.filter isKillClass =
      (if (applyBasicFields pd s.player).kills > s.player.kills then
        [{ event_type := killClass ((applyBasicFields pd s.player).round_kills) }]
      else []) := by
  rcases pd with ⟨n, t, st, ms, w⟩
  cases w
  case valid ws =>
    simp only [processPlayer, emit_kill_event, emit_damage_event]
    repeat' split
    all_goals simp [isKillClass_killClass, isKillClass_ammo, isKillClass_death,
      isKillClass_low_health, isKillClass_heavy]
  case malformed => exact absurd rfl h

theorem processPlayer_filter_damage (now : Int) (pd : PlayerData) (s : EngineState)
    (h : pd.weapons ≠ WeaponsField.malformed) :
    (processPlayer now pd s).2.1.filter isDamageClass =
      (if (applyBasicFields pd s.player).health < s.player.health ∧
          (applyBasicFields pd s.player).health > 0 then
        (if (applyBasicFields pd s.player).health ≤ 25 then
          [{ event_type := "low_health" }]
        else if s.player.health - (applyBasicFields pd s.player).health ≥ 50 then
          [{ event_type := "heavy_damage" }]
        else [])
      else []) := by
  rcases pd with ⟨n, t, st, ms, w⟩
  cases w
  case valid ws =>
    simp only [processPlayer, emit_kill_event, emit_damage_event]
    repeat' split
    all_goals simp [isDamageClass_killClass, isDamageClass_ammo, isDamageClass_death,
      isDamageClass_low_health, isDamageClass_heavy]
  case malformed => exact absurd rfl h

theorem processGameState_state_player (now : Int) (snap : Snapshot) (s : EngineState) :
    (processGameState now snap s).state.player =
      match snap.player with
      | none => s.player
      | some pd => (processPlayer now pd s).1.player := by
  rcases snap with ⟨sp, sr, sm⟩
  cases sp <;> simp only [processGameState] <;> (repeat' split) <;>
    simp [processRound_state_player, processMap_state_player]

theorem processGameState_ok (now : Int) (snap : Snapshot) (s : EngineState) :
    (processGameState now snap s).ok =
      match snap.player with
      | none => true
      | some pd =>
        match pd.weapons with
        | .malformed => false
        | .valid _ => true := by
  rcases snap with ⟨sp, sr, sm⟩
  cases sp
  case none =>
    simp only [processGameState]
    (repeat' split) <;> simp_all
  case some pd =>
    have hok := processPlayer_ok now pd s
    simp only [processGameState]
    (repeat' split) <;> simp_all

theorem processGameState_state_round (now : Int) (snap : Snapshot) (s : EngineState) :
    (processGameState now snap s).state.round =
      (if (processGameState now snap s).ok then
        match snap.round with
        | none => s.round
        | some rd => updateRound rd s.round
      else s.round) := by
  rcases snap with ⟨sp, sr, sm⟩
  cases sp <;> simp only [processGameState] <;> (repeat' split) <;>
    simp_all [processRound_state_round, processMap_state_round,
      processPlayer_state_round, processRound_state_player]

theorem processGameState_state_map (now : Int) (snap : Snapshot) (s : EngineState) :
    (processGameState now snap s).state.map =
      (if (processGameState now snap s).ok then
        match snap.map with
        | none => s.map
        | some md => updateMap md s.map
      else s.map) := by
  rcases snap with ⟨sp, sr, sm⟩
  cases sp <;> simp only [processGameState] <;> (repeat' split) <;>
    simp_all [processMap_state_map, processRound_state_map, processPlayer_state_map]

theorem processRound_filter_kill (rd : RoundData) (s : EngineState) :
    (processRound rd s).2.filter isKillClass = [] := by
  simp only [processRound, emit_round_start_event]
  repeat' split
  all_goals rfl

theorem processRound_filter_damage (rd : RoundData) (s : EngineState) :
    (processRound rd s).2.filter isDamageClass = [] := by
  simp only [processRound, emit_round_start_event]
  repeat' split
  all_goals rfl

theorem processMap_filter_kill (md : MapData) (s : EngineState) :
    (processMap md s).2.filter isKillClass = [] := by
  simp only [processMap]
  split <;> rfl

theorem processMap_filter_damage (md : MapData) (s : EngineState) :
    (processMap md s).2.filter isDamageClass = [] := by
  simp only [processMap]
  split <;> rfl

theorem processGameState_filter_kill (now : Int) (snap : Snapshot) (s : EngineState) :
    (processGameState now snap s).events.filter isKillClass =
      match snap.player with
      | none => []
      | some pd => (processPlayer now pd s).2.1.filter isKillClass := by
  rcases snap with ⟨sp, sr, sm⟩
  cases sp <;> simp only [processGameState] <;> (repeat' split) <;>
    simp [List.filter_append, processRound_filter_kill, processMap_filter_kill]

theorem processGameState_filter_damage (now : Int) (snap : Snapshot) (s : EngineState) :
    (processGameState now snap s).events.filter isDamageClass =
      match snap.player with
      | none => []
      | some pd => (processPlayer now pd s).2.1.filter isDamageClass := by
  rcases snap with ⟨sp, sr, sm⟩
  cases sp <;> simp only [processGameState] <;> (repeat' split) <;>
    simp [List.filter_append, processRound_filter_damage, processMap_filter_damage]

end CS2GSI

/-! ## Claim C1 -/

/-- C1 counterexample: a request whose body fails to parse is answered with
HTTP 500 and body status `error`, not the claimed invariable
200/`{"status":"ok"}`. -/
theorem c1_counterexample :
    (CS2GSI.gsi_handler 0 CS2GSI.Request.parse_failure {}).2 ≠
      ({ status_code := 200, status := "ok" } : CS2GSI.HttpResponse) := by
  decide

/-- C1 (amended): the handler answers `200 {"status":"ok"}` for every request
whose body parses and whose processing raises no exception (including a
falsy body, which is acknowledged without processing); but a body that fails
to parse, or an exception escaping `_process_game_state`, is answered
`500 {"status":"error"}` — these are the only two responses, and the state
mutations made before a processing failure are kept. -/
theorem c1_amended_handler_responses :
    ∀ (now : Int) (req : CS2GSI.Request) (s : CS2GSI.EngineState),
      ((CS2GSI.gsi_handler now req s).2 =
          ({ status_code := 200, status := "ok" } : CS2GSI.HttpResponse) ∨
       (CS2GSI.gsi_handler now req s).2 =
          ({ status_code := 500, status := "error" } : CS2GSI.HttpResponse)) ∧
      (CS2GSI.gsi_handler now CS2GSI.Request.parse_failure s =
        (s, { status_code := 500, status := "error" })) ∧
      (CS2GSI.gsi_handler now (CS2GSI.Request.body none) s =
        (s, { status_code := 200, status := "ok" })) ∧
      ∀ snap,
        ((CS2GSI.gsi_handler now (CS2GSI.Request.body (some snap)) s).2.status_code = 200 ↔
          (CS2GSI.processGameState now snap s).ok = true) ∧
        (CS2GSI.gsi_handler now (CS2GSI.Request.body (some snap)) s).1 =
          (CS2GSI.processGameState now snap s).state := by
  intro now req s
  refine ⟨?_, rfl, rfl, ?_⟩
  · rcases req with _ | d
    · right; rfl
    · rcases d with _ | snap
      · left; rfl
      · simp only [CS2GSI.gsi_handler]
        split
        · left; rfl
        · right; rfl
  · intro snap
    constructor
    · simp only [CS2GSI.gsi_handler]
      cases h : (CS2GSI.processGameState now snap s).ok <;> simp [h]
    · simp only [CS2GSI.gsi_handler]
      cases h : (CS2GSI.processGameState now snap s).ok <;> simp [h]

/-! ## Claim C2 -/

/-- C2 counterexample: processing of `snapBadWeapons` fails (the handler
would answer 500), yet the stored player health has been mutated from the
initial 100 to the snapshot's 50 — a partial mutation survives the
failure, contradicting the claimed all-or-nothing behaviour. -/
theorem c2_counterexample :
    (CS2GSI.processGameState 0 CS2GSI.snapBadWeapons {}).ok = false ∧
    (CS2GSI.processGameState 0 CS2GSI.snapBadWeapons {}).state.player.health = 50 ∧
    ({} : CS2GSI.EngineState).player.health = 100 := by
  refine ⟨rfl, rfl, rfl⟩

/-- C2 (amended): when the snapshot is missing entirely (falsy body) the
handler acknowledges with 200 and the ingest emits zero events and leaves
the stored state untouched; but when processing fails partway (a non-object
`weapons` value raising inside the player block), the scalar player fields
assigned before the failing statement keep their newly stored values — only
the work after the failure point is skipped (no events have been emitted by
then), and the failure is surfaced to the handler. -/
theorem c2_amended_failure_behavior :
    (∀ (now : Int) (s : CS2GSI.EngineState),
      CS2GSI.gsi_handler now (CS2GSI.Request.body none) s =
        (s, { status_code := 200, status := "ok" })) ∧
    (∀ (now : Int) (pd : CS2GSI.PlayerData) (rd : Option CS2GSI.RoundData)
        (md : Option CS2GSI.MapData) (s : CS2GSI.EngineState),
      pd.weapons = CS2GSI.WeaponsField.malformed →
      CS2GSI.processGameState now { player := some pd, round := rd, map := md } s =
        { state := { s with player := CS2GSI.applyBasicFields pd s.player },
          events := [], ok := false }) := by
  constructor
  · intro now s; rfl
  · intro now pd rd md s h
    rcases pd with ⟨n, t, st, ms, w⟩
    cases w
    case malformed => rfl
    case valid ws => exact absurd h (by simp)

/-- Witness for `c2_amended_failure_behavior`: the malformed-weapons
snapshot yields exactly the partially mutated state, no events, failure. -/
theorem c2_amended_failure_behavior_witness :
    CS2GSI.processGameState 0
        { player := some { state := { health := some 50 },
                           weapons := CS2GSI.WeaponsField.malformed } } {} =
      { state := { player := { health := 50 } }, events := [], ok := false } :=
  (c2_amended_failure_behavior.2 0
    { state := { health := some 50 }, weapons := CS2GSI.WeaponsField.malformed }
    none none {} rfl).trans (by decide)

/-! ## Claim C8 -/

/-- C8 counterexample: a snapshot reporting health 150 is stored verbatim;
the stored health leaves [0,100], so no clamping happens. -/
theorem c8_counterexample :
    (CS2GSI.processGameState 0 CS2GSI.snapHugeHealth {}).state.player.health = 150 ∧
    ¬ ((CS2GSI.processGameState 0 CS2GSI.snapHugeHealth {}).state.player.health ≤ 100) := by
  refine ⟨rfl, by decide⟩

/-- C8 (amended): the stored player health after a processed snapshot is
exactly the snapshot's health value when the key is present (otherwise the
prior value) — stored verbatim with no clamping to [0,100]. -/
theorem c8_amended_health_not_clamped :
    ∀ (now : Int) (snap : CS2GSI.Snapshot) (s : CS2GSI.EngineState),
      (CS2GSI.processGameState now snap s).state.player.health =
        match snap.player with
        | none => s.player.health
        | some pd => pd.state.health.getD s.player.health := by
  intro now snap s
  rw [CS2GSI.processGameState_state_player]
  cases hsp : snap.player with
  | none => rfl
  | some pd =>
    exact (CS2GSI.processPlayer_player_basics now pd s).2.2.1

/-! ## Claim C9 -/

/-- C9 counterexample: with the stored round at 5, kill streak 3 and
round-start baseline 7, a snapshot reporting round 2 (a decrease) is
processed without any new-match reset: the round is simply overwritten and
both round-scoped counters keep their old values. -/
theorem c9_counterexample :
    (CS2GSI.processGameState 0 CS2GSI.snapRoundTwo CS2GSI.stateMidMatch).state.map.round = 2 ∧
    CS2GSI.stateMidMatch.map.round = 5 ∧
    (CS2GSI.processGameState 0 CS2GSI.snapRoundTwo CS2GSI.stateMidMatch).state.kill_streak = 3 ∧
    (CS2GSI.processGameState 0 CS2GSI.snapRoundTwo CS2GSI.stateMidMatch).state.round_start_kills = 7 := by
  refine ⟨rfl, rfl, rfl, rfl⟩

/-- C9 (amended): the map block performs no new-match detection at all: for
any map data (including one whose round number is lower than the stored
round), processing a map-only snapshot overwrites the stored round number
with the reported one and leaves the kill streak, the round-start kill
baseline and the whole player state unchanged. -/
theorem c9_amended_no_new_match_reset :
    ∀ (now : Int) (md : CS2GSI.MapData) (s : CS2GSI.EngineState),
      (CS2GSI.processGameState now { map := some md } s).state.kill_streak =
        s.kill_streak ∧
      (CS2GSI.processGameState now { map := some md } s).state.round_start_kills =
        s.round_start_kills ∧
      (CS2GSI.processGameState now { map := some md } s).state.map.round =
        md.round.getD s.map.round ∧
      (CS2GSI.processGameState now { map := some md } s).state.player = s.player := by
  intro now md s
  exact ⟨rfl, rfl, rfl, rfl⟩

namespace CS2GSI

theorem applyBasicFields_kills (pd : PlayerData) (p : PlayerState) :
    (applyBasicFields pd p).kills = pd.match_stats.kills.getD p.kills := rfl

theorem applyBasicFields_round_kills (pd : PlayerData) (p : PlayerState) :
    (applyBasicFields pd p).round_kills = pd.state.round_kills.getD p.round_kills := rfl

theorem applyBasicFields_health (pd : PlayerData) (p : PlayerState) :
    (applyBasicFields pd p).health = pd.state.health.getD p.health := rfl

theorem processGameState_ok_ne_malformed (now : Int) (snap : Snapshot)
    (s : EngineState) (pd : PlayerData) (hsp : snap.player = some pd)
    (hok : (processGameState now snap s).ok = true) :
    pd.weapons ≠ WeaponsField.malformed := by
  intro hw
  have h := processGameState_ok now snap s
  rw [hok, hsp] at h
  simp [hw] at h

end CS2GSI

/-! ## Claim C4 -/

/-- C4: whenever a processed snapshot raises the stored match-kill counter,
the emitted events contain exactly one kill-class event, and its type is
`killClass` of the round-kill counter stored at that instant (≥5 ace, 4
quadra_kill, 3 triple_kill, 2 double_kill, otherwise kill) — in particular
a single snapshot jumping round-kills from 0 to 5 yields one `ace` and no
`kill` events. -/
theorem c4_kill_event_classification :
    ∀ (now : Int) (snap : CS2GSI.Snapshot) (s : CS2GSI.EngineState),
      (CS2GSI.processGameState now snap s).ok = true →
      s.player.kills < (CS2GSI.processGameState now snap s).state.player.kills →
      (CS2GSI.processGameState now snap s).events.filter CS2GSI.isKillClass =
        [{ event_type := CS2GSI.killClass
            ((CS2GSI.processGameState now snap s).state.player.round_kills) }] := by
  intro now snap s hok hlt
  rw [CS2GSI.processGameState_state_player] at hlt
  rw [CS2GSI.processGameState_state_player, CS2GSI.processGameState_filter_kill]
  cases hsp : snap.player with
  | none =>
    rw [hsp] at hlt
    exact absurd hlt (lt_irrefl _)
  | some pd =>
    rw [hsp] at hlt
    dsimp only at hlt ⊢
    have hmal : pd.weapons ≠ CS2GSI.WeaponsField.malformed :=
      CS2GSI.processGameState_ok_ne_malformed now snap s pd hsp hok
    obtain ⟨_, _, _, _, _, _, hrk, _, _, hkills, _⟩ :=
      CS2GSI.processPlayer_player_basics now pd s
    rw [CS2GSI.processPlayer_filter_kill now pd s hmal]
    rw [hkills] at hlt
    rw [if_pos (by rw [CS2GSI.applyBasicFields_kills]; exact hlt)]
    rw [hrk, CS2GSI.applyBasicFields_round_kills]

/-- Witness for `c4_kill_event_classification`: on `snapAceJump` (kills
0→1, round-kills jumping to 5) processing succeeds, the kill counter rose,
and the emitted kill-class events are exactly one `ace`. -/
theorem c4_kill_event_classification_witness :
    ({} : CS2GSI.EngineState).player.kills <
      (CS2GSI.processGameState 0 CS2GSI.snapAceJump {}).state.player.kills ∧
    (CS2GSI.processGameState 0 CS2GSI.snapAceJump {}).events.filter CS2GSI.isKillClass =
      [{ event_type := "ace" }] :=
  ⟨by decide,
   (c4_kill_event_classification 0 CS2GSI.snapAceJump {} (by decide) (by decide)).trans
     (by decide)⟩

/-! ## Claim C5 -/

/-- C5 counterexample: a snapshot dropping health from 100 to 90 (a decrease
with the new health positive) emits no event at all — in particular no
`damage` event, which the claim requires. -/
theorem c5_counterexample :
    (CS2GSI.processGameState 0 CS2GSI.snapSmallDamage {}).state.player.health = 90 ∧
    ({} : CS2GSI.EngineState).player.health = 100 ∧
    (CS2GSI.processGameState 0 CS2GSI.snapSmallDamage {}).events = [] := by
  refine ⟨rfl, rfl, by decide⟩

/-- C5 (amended): no event of type `damage` exists.  When a processed
snapshot decreases the stored health to a value that is still positive, the
damage-related events emitted are: exactly one `low_health` when the new
health is ≤ 25; otherwise exactly one `heavy_damage` when the health drop is
≥ 50; otherwise none. -/
theorem c5_amended_damage_events :
    ∀ (now : Int) (snap : CS2GSI.Snapshot) (s : CS2GSI.EngineState),
      (CS2GSI.processGameState now snap s).ok = true →
      (CS2GSI.processGameState now snap s).state.player.health < s.player.health →
      0 < (CS2GSI.processGameState now snap s).state.player.health →
      (CS2GSI.processGameState now snap s).events.filter CS2GSI.isDamageClass =
        (if (CS2GSI.processGameState now snap s).state.player.health ≤ 25 then
          [{ event_type := "low_health" }]
        else if s.player.health -
            (CS2GSI.processGameState now snap s).state.player.health ≥ 50 then
          [{ event_type := "heavy_damage" }]
        else []) := by
  intro now snap s hok hlt hpos
  rw [CS2GSI.processGameState_state_player] at hlt hpos ⊢
  rw [CS2GSI.processGameState_filter_damage]
  cases hsp : snap.player with
  | none =>
    rw [hsp] at hlt
    exact absurd hlt (lt_irrefl _)
  | some pd =>
    rw [hsp] at hlt hpos
    dsimp only at hlt hpos ⊢
    have hmal : pd.weapons ≠ CS2GSI.WeaponsField.malformed :=
      CS2GSI.processGameState_ok_ne_malformed now snap s pd hsp hok
    obtain ⟨_, _, hhealth, _⟩ := CS2GSI.processPlayer_player_basics now pd s
    rw [CS2GSI.processPlayer_filter_damage now pd s hmal]
    rw [hhealth] at hlt hpos ⊢
    rw [if_pos (by rw [CS2GSI.applyBasicFields_health]; exact ⟨hlt, hpos⟩)]
    rw [CS2GSI.applyBasicFields_health]

/-- Witness for `c5_amended_damage_events`: dropping health from 100 to 20
emits exactly one `low_health` among the damage-related events. -/
theorem c5_amended_damage_events_witness :
    (CS2GSI.processGameState 0 CS2GSI.snapLowHealth {}).events.filter
        CS2GSI.isDamageClass = [{ event_type := "low_health" }] :=
  (c5_amended_damage_events 0 CS2GSI.snapLowHealth {} (by decide) (by decide)
    (by decide)).trans (by decide)

/-! ## Claim C7 -/

/-- C7 counterexample: with a stored defuse kit (`defuse_kit = true`), a
snapshot whose player block carries no `defusekit` key resets the stored
flag to `false` instead of keeping the prior value. -/
theorem c7_counterexample :
    CS2GSI.stateWithKit.player.defuse_kit = true ∧
    (CS2GSI.processGameState 0 CS2GSI.snapNameOnly
        CS2GSI.stateWithKit).state.player.defuse_kit = false := by
  refine ⟨rfl, rfl⟩

/-- C7 (amended): for the fields read with a prior-value default — the
player's name, team and the nine `state`/five `match_stats` scalars, the
three round fields and the six map fields — an absent key leaves the stored
value unchanged; but whenever a player block is processed (weapons being a
proper object), the three flags read with fixed defaults are reset on
absence: `defusekit` → false, `bomb` → false, `fatigue` → 100. -/
theorem c7_amended_field_defaults :
    ∀ (now : Int) (pd : CS2GSI.PlayerData) (rd : CS2GSI.RoundData)
      (md : CS2GSI.MapData) (s : CS2GSI.EngineState),
      ((pd.name = none →
          (CS2GSI.processGameState now { player := some pd, round := some rd, map := some md } s).state.player.name = s.player.name) ∧
       (pd.team = none →
          (CS2GSI.processGameState now { player := some pd, round := some rd, map := some md } s).state.player.team = s.player.team) ∧
       (pd.state.health = none →
          (CS2GSI.processGameState now { player := some pd, round := some rd, map := some md } s).state.player.health = s.player.health) ∧
       (pd.state.armor = none →
          (CS2GSI.processGameState now { player := some pd, round := some rd, map := some md } s).state.player.armor = s.player.armor) ∧
       (pd.state.helmet = none →
          (CS2GSI.processGameState now { player := some pd, round := some rd, map := some md } s).state.player.helmet = s.player.helmet) ∧
       (pd.state.money = none →
          (CS2GSI.processGameState now { player := some pd, round := some rd, map := some md } s).state.player.money = s.player.money) ∧
       (pd.state.round_kills = none →
          (CS2GSI.processGameState now { player := some pd, round := some rd, map := some md } s).state.player.round_kills = s.player.round_kills) ∧
       (pd.state.round_killhs = none →
          (CS2GSI.processGameState now { player := some pd, round := some rd, map := some md } s).state.player.round_killhs = s.player.round_killhs) ∧
       (pd.state.equip_value = none →
          (CS2GSI.processGameState now { player := some pd, round := some rd, map := some md } s).state.player.equip_value = s.player.equip_value) ∧
       (pd.match_stats.kills = none →
          (CS2GSI.processGameState now { player := some pd, round := some rd, map := some md } s).state.player.kills = s.player.kills) ∧
       (pd.match_stats.assists = none →
          (CS2GSI.processGameState now { player := some pd, round := some rd, map := some md } s).state.player.assists = s.player.assists) ∧
       (pd.match_stats.deaths = none →
          (CS2GSI.processGameState now { player := some pd, round := some rd, map := some md } s).state.player.deaths = s.player.deaths) ∧
       (pd.match_stats.mvps = none →
          (CS2GSI.processGameState now { player := some pd, round := some rd, map := some md } s).state.player.mvps = s.player.mvps) ∧
       (pd.match_stats.score = none →
          (CS2GSI.processGameState now { player := some pd, round := some rd, map := some md } s).state.player.score = s.player.score)) ∧
      (∀ ws, pd.weapons = CS2GSI.WeaponsField.valid ws →
        (pd.state.defusekit = none →
          (CS2GSI.processGameState now { player := some pd, round := some rd, map := some md } s).state.player.defuse_kit = false) ∧
        (pd.state.bomb = none →
          (CS2GSI.processGameState now { player := some pd, round := some rd, map := some md } s).state.player.has_bomb = false) ∧
        (pd.state.fatigue = none →
          (CS2GSI.processGameState now { player := some pd, round := some rd, map := some md } s).state.player.fatigue = 100)) ∧
      ((rd.phase = none →
          (CS2GSI.processGameState now { player := some pd, round := some rd, map := some md } s).state.round.phase = s.round.phase) ∧
       (rd.bomb = none →
          (CS2GSI.processGameState now { player := some pd, round := some rd, map := some md } s).state.round.bomb = s.round.bomb) ∧
       (rd.win_team = none →
          (CS2GSI.processGameState now { player := some pd, round := some rd, map := some md } s).state.round.win_team = s.round.win_team)) ∧
      ((md.name = none →
          (CS2GSI.processGameState now { player := some pd, round := some rd, map := some md } s).state.map.name = s.map.name) ∧
       (md.mode = none →
          (CS2GSI.processGameState now { player := some pd, round := some rd, map := some md } s).state.map.mode = s.map.mode) ∧
       (md.phase = none →
          (CS2GSI.processGameState now { player := some pd, round := some rd, map := some md } s).state.map.phase = s.map.phase) ∧
       (md.round = none →
          (CS2GSI.processGameState now { player := some pd, round := some rd, map := some md } s).state.map.round = s.map.round) ∧
       (md.team_ct.score = none →
          (CS2GSI.processGameState now { player := some pd, round := some rd, map := some md } s).state.map.ct_score = s.map.ct_score) ∧
       (md.team_t.score = none →
          (CS2GSI.processGameState now { player := some pd, round := some rd, map := some md } s).state.map.t_score = s.map.t_score)) := by
  intro now pd rd md s
  obtain ⟨hname, hteam, hhealth, harmor, hhelmet, hmoney, hrk, hrkhs, hev,
    hkills, hassists, hdeaths, hmvps, hscore⟩ :=
    CS2GSI.processPlayer_player_basics now pd s
  have hp := CS2GSI.processGameState_state_player now
    { player := some pd, round := some rd, map := some md } s
  dsimp only at hp
  have hr := CS2GSI.processGameState_state_round now
    { player := some pd, round := some rd, map := some md } s
  dsimp only at hr
  have hm := CS2GSI.processGameState_state_map now
    { player := some pd, round := some rd, map := some md } s
  dsimp only at hm
  refine ⟨⟨?_, ?_, ?_, ?_, ?_, ?_, ?_, ?_, ?_, ?_, ?_, ?_, ?_, ?_⟩, ?_,
    ⟨?_, ?_, ?_⟩, ⟨?_, ?_, ?_, ?_, ?_, ?_⟩⟩
  · intro h; rw [hp, hname, h]; rfl
  · intro h; rw [hp, hteam, h]; rfl
  · intro h; rw [hp, hhealth, h]; rfl
  · intro h; rw [hp, harmor, h]; rfl
  · intro h; rw [hp, hhelmet, h]; rfl
  · intro h; rw [hp, hmoney, h]; rfl
  · intro h; rw [hp, hrk, h]; rfl
  · intro h; rw [hp, hrkhs, h]; rfl
  · intro h; rw [hp, hev, h]; rfl
  · intro h; rw [hp, hkills, h]; rfl
  · intro h; rw [hp, hassists, h]; rfl
  · intro h; rw [hp, hdeaths, h]; rfl
  · intro h; rw [hp, hmvps, h]; rfl
  · intro h; rw [hp, hscore, h]; rfl
  · intro ws hws
    obtain ⟨hdk, hhb, hfa⟩ := CS2GSI.processPlayer_player_resets now pd s
      (by rw [hws]; simp)
    exact ⟨fun h => by rw [hp, hdk, h]; rfl,
           fun h => by rw [hp, hhb, h]; rfl,
           fun h => by rw [hp, hfa, h]; rfl⟩
  · intro h
    rw [hr]; split
    · simp [CS2GSI.updateRound, h]
    · rfl
  · intro h
    rw [hr]; split
    · simp [CS2GSI.updateRound, h]
    · rfl
  · intro h
    rw [hr]; split
    · simp [CS2GSI.updateRound, h]
    · rfl
  · intro h
    rw [hm]; split
    · simp [CS2GSI.updateMap, h]
    · rfl
  · intro h
    rw [hm]; split
    · simp [CS2GSI.updateMap, h]
    · rfl
  · intro h
    rw [hm]; split
    · simp [CS2GSI.updateMap, h]
    · rfl
  · intro h
    rw [hm]; split
    · simp [CS2GSI.updateMap, h]
    · rfl
  · intro h
    rw [hm]; split
    · simp [CS2GSI.updateMap, h]
    · rfl
  · intro h
    rw [hm]; split
    · simp [CS2GSI.updateMap, h]
    · rfl

/-- Witness for `c7_amended_field_defaults`: a snapshot whose player block
holds only a name leaves the stored health at its prior value, and — with a
defuse kit stored — resets the kit flag to `false`. -/
theorem c7_amended_field_defaults_witness :
    (CS2GSI.processGameState 0
        { player := some { name := some "p" }, round := some {}, map := some {} }
        CS2GSI.stateWithKit).state.player.health =
      CS2GSI.stateWithKit.player.health ∧
    (CS2GSI.processGameState 0
        { player := some { name := some "p" }, round := some {}, map := some {} }
        CS2GSI.stateWithKit).state.player.defuse_kit = false :=
  ⟨(c7_amended_field_defaults 0 { name := some "p" } {} {} CS2GSI.stateWithKit).1.2.2.1 rfl,
   (((c7_amended_field_defaults 0 { name := some "p" } {} {}
      CS2GSI.stateWithKit).2.1 [] rfl).1 rfl)⟩
